import Mathlib

/-!
Shallow embedding of `pmpsdb_client/ftp_data.py` and a verification of the
specification's claims about it.  Python-level behaviour (the `ftplib`
session, `str` methods, `int()`, `datetime`, `dict` equality and the values
produced by `json.loads`) is modelled by executable Lean functions; each
definition mirrors the corresponding construct of the source module.
-/

/-- Exception classes that the embedded code can raise, collapsed to the
granularity the module distinguishes: `ftplib.error_perm`, the module's own
`RuntimeError`, `ValueError` (failed unpacking / `int()` / `datetime`),
`UnicodeDecodeError` from strict ascii decoding, `OSError` from `open()`,
an exception raised by the caller's `with`-body, and anything else. -/
inductive PyExc where
  | errorPerm
  | runtimeError
  | valueError
  | unicodeDecodeError
  | ioError
  | bodyError
  | otherError
  deriving DecidableEq, Repr

/-- Split a character list at every character satisfying `p`, keeping empty
segments, exactly like Python `str.split(sep)` for a one-character `sep`
(and like the raw segmentation underlying `str.split()`).  The second
argument accumulates the current segment in reverse. -/
def splitOnPred (p : Char → Bool) : List Char → List Char → List (List Char)
  | [], acc => [acc.reverse]
  | c :: rest, acc =>
    if p c then acc.reverse :: splitOnPred p rest []
    else splitOnPred p rest (c :: acc)

/-- Python `str.split(sep)` for a single-character separator: splits at every
occurrence and keeps empty segments. -/
def pySplitChar (s : String) (sep : Char) : List String :=
  (splitOnPred (fun c => c = sep) s.data []).map String.mk

/-- Python `str.split()` with no argument: split on runs of whitespace and
drop empty segments. -/
def pySplitWs (s : String) : List String :=
  ((splitOnPred Char.isWhitespace s.data []).filter (fun l => !l.isEmpty)).map String.mk

/-- Decimal value of a digit list, most significant first. -/
def digitsToNat (l : List Char) : Nat :=
  l.foldl (fun acc c => 10 * acc + (c.toNat - 48)) 0

/-- Python `int(s)` on a string: surrounding whitespace is stripped, an
optional single sign is allowed, and the remainder must be one or more
decimal digits, otherwise `ValueError`.  (Digit-group underscores are not
modelled; no token handled by this module contains them.) -/
def pyInt (s : String) : Except PyExc Int :=
  let t := (((s.data.dropWhile Char.isWhitespace).reverse.dropWhile Char.isWhitespace).reverse)
  let signDigits : Int × List Char :=
    match t with
    | '+' :: rest => (1, rest)
    | '-' :: rest => (-1, rest)
    | l => (1, l)
  if signDigits.2 ≠ [] ∧ signDigits.2.all Char.isDigit = true then
    .ok (signDigits.1 * (digitsToNat signDigits.2 : Int))
  else
    .error .valueError

/-- Python `a or b` for an optional string `a` and string default `b`: both
`None` and the empty string are falsy and select the default. -/
def pyOrDefault (a : Option String) (b : String) : String :=
  match a with
  | none => b
  | some s => if s = "" then b else s

/-- Python f-string interpolation of a value that is either a string or
`None`: `None` renders as the four characters `None`. -/
def pyFStr : Option String → String
  | some s => s
  | none => "None"

/-- Python `os.path.basename`: everything after the last slash. -/
def pyBasename (p : String) : String :=
  String.mk ((splitOnPred (fun c => c = '/') p.data []).getLastD [])

/-- The module constant `DEFAULT_PW`: the fixed ordered default credential
list `(('Administrator', '1'), ('webguest', '1'))`. -/
def DEFAULT_PW : List (String × String) :=
  [("Administrator", "1"), ("webguest", "1")]

/-- The module constant `DIRECTORY = 'pmps'`. -/
def DIRECTORY : String := "pmps"

/-- Line 51 of `ftp`: `directory = directory or DIRECTORY`. -/
def resolveDirectory (directory : Option String) : String :=
  pyOrDefault directory DIRECTORY

/-- A login target: `some (user, pwd)` is one entry of `DEFAULT_PW`,
`none` is the anonymous login `ftp_obj.login()`. -/
abbrev Cred := Option (String × String)

/-- Behaviour of the remote host on one login attempt: `ftplib.FTP.login`
either returns its response string (it never returns `None`), raises
`ftplib.error_perm`, or raises some other exception. -/
inductive LoginResult where
  | ok (resp : String)
  | permError
  | otherError
  deriving DecidableEq, Repr

/-- Is the attempt accepted? -/
def isAccepted : LoginResult → Bool
  | .ok _ => true
  | _ => false

/-- The credential loop of `ftp` (lines 57-63): `rval = None`, then for each
`(user, pwd)` in `DEFAULT_PW`, `rval = ftp_obj.login(user, pwd)` with
`ftplib.error_perm` swallowed (there is no `break`: the loop always
continues to the next credential) and any other exception propagating.
Returns the attempt list in order and the final `rval` (or the propagated
exception). -/
def tryDefaults (login : Cred → LoginResult) :
    List (String × String) → Option String → List Cred × Except PyExc (Option String)
  | [], rval => ([], .ok rval)
  | c :: rest, rval =>
    match login (some c) with
    | .ok resp =>
      (some c :: (tryDefaults login rest (some resp)).1,
       (tryDefaults login rest (some resp)).2)
    | .permError =>
      (some c :: (tryDefaults login rest rval).1,
       (tryDefaults login rest rval).2)
    | .otherError => ([some c], .error .otherError)

/-- The value of `rval` after the credential loop: the response of the last
accepted credential, else the initial value. -/
def lastOkResp (login : Cred → LoginResult) :
    List (String × String) → Option String → Option String
  | [], rval => rval
  | c :: rest, rval =>
    match login (some c) with
    | .ok resp => lastOkResp login rest (some resp)
    | _ => lastOkResp login rest rval

/-- Lines 57-70 of `ftp`: the credential loop, then
`if rval is None: rval = ftp_obj.login()` (anonymous fallback, its
exceptions uncaught), then `if rval is None: raise RuntimeError(...)`.
Since `login` returns a response string whenever it returns at all, the
final `is None` test is modelled on the just-assigned `some` value.
Returns the ordered list of login attempts made and the outcome. -/
def loginPhase (login : Cred → LoginResult) : List Cred × Except PyExc String :=
  match tryDefaults login DEFAULT_PW none with
  | (att, .error e) => (att, .error e)
  | (att, .ok (some r)) =>
    if (some r : Option String) = none then (att, .error .runtimeError)
    else (att, .ok r)
  | (att, .ok none) =>
    match login none with
    | .ok resp =>
      if (some resp : Option String) = none then (att ++ [none], .error .runtimeError)
      else (att ++ [none], .ok resp)
    | .permError => (att ++ [none], .error .errorPerm)
    | .otherError => (att ++ [none], .error .otherError)

/-- Remote-host behaviour relevant to one run of the `ftp` context manager:
how it answers each login attempt, the root directory listing returned by
`ftp_obj.nlst()`, and whether `ftp_obj.quit()` raises during teardown. -/
structure HostBehavior where
  login : Cred → LoginResult
  rootListing : List String
  quitFails : Bool

/-- Observable protocol actions of one run of the `ftp` context manager, in
order.  A trace that ends without `quit` or `close` left the connection
open. -/
inductive FtpEvent where
  | connect (hostname : String)
  | loginAttempt (cred : Cred)
  | mkd (dir : String)
  | cwd (dir : String)
  | runBody
  | quit
  | close
  deriving DecidableEq, Repr

/-- Outcome of the caller's `with`-body: it either returns normally or
raises an exception. -/
inductive BodyResult where
  | normal
  | raises
  deriving DecidableEq, Repr

/-- One complete entry-to-exit run of the `ftp` context manager
(lines 28-84), as executed by `with ftp(hostname, directory) as ftp_obj:`.
After a successful login the code lists the root, creates `directory` if
absent, changes into it and yields.  The `yield` is not wrapped in any
`try`/`finally`: if the body raises, `contextlib` throws the exception into
the generator at the yield point and the cleanup lines 79-84 never run.  On
a normal body exit the code tries `ftp_obj.quit()` and falls back to
`ftp_obj.close()` if that raises. -/
def ftp (hb : HostBehavior) (hostname : String) (directory : Option String)
    (body : BodyResult) : List FtpEvent × Except PyExc Unit :=
  let dir := resolveDirectory directory
  let lp := loginPhase hb.login
  let evs := FtpEvent.connect hostname :: lp.1.map FtpEvent.loginAttempt
  match lp.2 with
  | .error e => (evs, .error e)
  | .ok _ =>
    let evs2 := evs ++ (if dir ∈ hb.rootListing then [] else [FtpEvent.mkd dir])
      ++ [FtpEvent.cwd dir, FtpEvent.runBody]
    match body with
    | .raises => (evs2, .error .bodyError)
    | .normal =>
      if hb.quitFails then (evs2 ++ [FtpEvent.quit, FtpEvent.close], .ok ())
      else (evs2 ++ [FtpEvent.quit], .ok ())

/-- The part of an `ftp(...)` entry that the file-transfer operations
observe: either the propagated connection/login exception, or the resolved
working directory of the established session. -/
def ftp_session (login : Cred → LoginResult) (directory : Option String) :
    Except PyExc String :=
  match (loginPhase login).2 with
  | .error e => .error e
  | .ok _ => .ok (resolveDirectory directory)

deriving instance DecidableEq for Except

/-- Python leap-year rule, as used by `datetime.date`. -/
def isLeapYear (y : Int) : Bool :=
  (y % 4 = 0 && y % 100 ≠ 0) || y % 400 = 0

/-- Number of days of a month, as validated by `datetime.datetime`. -/
def daysInMonth (y m : Int) : Int :=
  if m = 2 then (if isLeapYear y then 29 else 28)
  else if m = 4 ∨ m = 6 ∨ m = 9 ∨ m = 11 then 30
  else 31

/-- The fields of a `datetime.datetime` value as constructed by
`PLCFile.from_list_line` (the listing format has no seconds). -/
structure Datetime where
  year : Int
  month : Int
  day : Int
  hour : Int
  minute : Int
  deriving DecidableEq, Repr

/-- The `datetime.datetime(year=..., month=..., day=..., hour=..., minute=...)`
constructor: validates every field range (`MINYEAR = 1`, `MAXYEAR = 9999`)
and raises `ValueError` on any violation. -/
def datetime_new (year month day hour minute : Int) : Except PyExc Datetime :=
  if 1 ≤ year ∧ year ≤ 9999 ∧ 1 ≤ month ∧ month ≤ 12 ∧ 1 ≤ day ∧
      day ≤ daysInMonth year month ∧ 0 ≤ hour ∧ hour ≤ 23 ∧ 0 ≤ minute ∧ minute ≤ 59 then
    .ok ⟨year, month, day, hour, minute⟩
  else
    .error .valueError

/-- The dataclass `PLCFile`: filename, creation time and size of one file on
the PLC as learned through ftp. -/
structure PLCFile where
  filename : String
  create_time : Datetime
  size : Int
  deriving DecidableEq, Repr

/-- The body of `PLCFile.from_list_line` after the unpacking assignment
`date, time, size, filename = line.split()` has succeeded with exactly four
tokens: split the date on `-` and the time on `:` (both must yield exactly
the unpacked arity, else `ValueError`), convert the fields with `int()`,
build the `datetime` with `year + 2000`, convert the size, and construct
the record. -/
def fromTokens : List String → Except PyExc PLCFile
  | [date, time, size, filename] =>
    match pySplitChar date '-' with
    | [monthS, dayS, yearS] =>
      match pySplitChar time ':' with
      | [hourS, minuteS] => do
        let year ← pyInt yearS
        let month ← pyInt monthS
        let day ← pyInt dayS
        let hour ← pyInt hourS
        let minute ← pyInt minuteS
        let dt ← datetime_new (year + 2000) month day hour minute
        let sz ← pyInt size
        .ok ⟨filename, dt, sz⟩
      | _ => .error .valueError
    | _ => .error .valueError
  | _ => .error .valueError

/-- The classmethod `PLCFile.from_list_line` (lines 124-155): parse one line
of `LIST` output.  `line.split()` must unpack into exactly four tokens
`date, time, size, filename` or the assignment raises `ValueError`. -/
def PLCFile.from_list_line (line : String) : Except PyExc PLCFile :=
  fromTokens (pySplitWs line)

/-- Is a byte an ascii code point?  The strict `bytes.decode('ascii')`
accepts exactly the bytes below 128. -/
def isAsciiByte (b : Nat) : Bool := b < 128

/-- Python `chunk.decode('ascii')`: strict, a non-ascii byte raises
`UnicodeDecodeError` and nothing is replaced.  Decoded ascii text is
represented by its code points. -/
def pyDecodeAscii (chunk : List Nat) : Except PyExc (List Nat) :=
  if chunk.all isAsciiByte then .ok chunk else .error .unicodeDecodeError

/-- Lines 289-292 of `download_file_text`: `contents = ''` then
`contents += chunk.decode('ascii')` over the accumulated byte chunks. -/
def decode_loop (contents : List Nat) : List (List Nat) → Except PyExc (List Nat)
  | [] => .ok contents
  | chunk :: rest =>
    match pyDecodeAscii chunk with
    | .error e => .error e
    | .ok s => decode_loop (contents ++ s) rest

/-- State of the remote FTP server's file store: an association list from
(directory, filename) to file bytes; the most recent store is found first. -/
abbrev RemoteFS := List ((String × String) × List Nat)

/-- Bytes of the named file as returned by a `RETR` data transfer, if the
file exists in the directory. -/
def retrFile (fs : RemoteFS) (dir name : String) : Option (List Nat) :=
  match fs with
  | [] => none
  | e :: rest => if e.1 = (dir, name) then some e.2 else retrFile rest dir name

/-- Effect of `STOR name` on the server: the uploaded bytes replace any
existing file of the same name in the directory (last write wins). -/
def storFile (fs : RemoteFS) (dir name : String) (data : List Nat) : RemoteFS :=
  ((dir, name), data) :: fs.filter (fun e => decide (e.1 ≠ (dir, name)))

/-- The function `upload_file` (lines 186-216): open a session with
`ftp(hostname, directory)` and issue `STOR target_filename` streaming the
full byte stream `fd`; returns the resulting server state.  Session
establishment failures propagate. -/
def upload_file (login : Cred → LoginResult) (fs : RemoteFS)
    (hostname target_filename : String) (data : List Nat)
    (directory : Option String) : Except PyExc RemoteFS :=
  match ftp_session login directory with
  | .error e => .error e
  | .ok dir => .ok (storFile fs dir target_filename data)

/-- The function `upload_filename` (lines 219-251): open the local file,
then `upload_file` under `dest_filename or os.path.basename(filename)`.
The local filesystem is a partial map from path to bytes; a missing local
file raises `OSError`. -/
def upload_filename (login : Cred → LoginResult)
    (localfs : String → Option (List Nat)) (fs : RemoteFS)
    (hostname filename : String) (dest_filename : Option String)
    (directory : Option String) : Except PyExc RemoteFS :=
  match localfs filename with
  | none => .error .ioError
  | some data =>
    upload_file login fs hostname (pyOrDefault dest_filename (pyBasename filename))
      data directory

/-- The function `download_file_text` (lines 254-292): open a session,
issue `RETR {filename}` (an f-string: a `None` filename is interpolated as
the literal name `None`), collect the delivered chunks, then decode them as
strict ascii and concatenate.  `chunking` is the transport's division of
the stored bytes into data-callback chunks. -/
def download_file_text (login : Cred → LoginResult) (fs : RemoteFS)
    (hostname : String) (filename : Option String) (directory : Option String)
    (chunking : List Nat → List (List Nat)) : Except PyExc (List Nat) :=
  match ftp_session login directory with
  | .error e => .error e
  | .ok dir =>
    match retrFile fs dir (pyFStr filename) with
    | none => .error .errorPerm
    | some data => decode_loop [] (chunking data)

/-- A scalar value as produced by `json.loads` for the two-level
configuration documents: string, number (integral numbers suffice for the
claims; floats are not modelled), boolean or null. -/
inductive JVal where
  | str (s : String)
  | num (n : Int)
  | bool (b : Bool)
  | null
  deriving DecidableEq, Repr

/-- Python `==` on scalar json values: strings only equal strings, `None`
only equals `None`, but `bool` is a subclass of `int` in Python, so a
boolean compares equal to its numeric value (`True == 1`). -/
def pyEq : JVal → JVal → Bool
  | .str a, .str b => a == b
  | .num a, .num b => a == b
  | .bool a, .bool b => a == b
  | .bool a, .num b => (if a then (1 : Int) else 0) == b
  | .num a, .bool b => a == (if b then (1 : Int) else 0)
  | .null, .null => true
  | _, _ => false

/-- A parameter map: one inner json object, as an insertion-ordered
association list (Python dicts cannot hold duplicate keys). -/
abbrev ParamMap := List (String × JVal)

/-- A ConfigDocument: device/entity name to parameter map. -/
abbrev ConfigDocument := List (String × ParamMap)

/-- Python `d[k]`-style association lookup: first entry with the key. -/
def pyLookup {α : Type} : List (String × α) → String → Option α
  | [], _ => none
  | e :: rest, k => if e.1 = k then some e.2 else pyLookup rest k

/-- CPython `dict` equality, parametrised by the equality used on values:
the lengths must agree and every key of the left dict must be present in
the right one with an equal value.  Insertion order is not consulted. -/
def pyDictEq {α : Type} (veq : α → α → Bool) (a b : List (String × α)) : Bool :=
  (a.length == b.length) &&
  a.all (fun p =>
    match pyLookup b p.1 with
    | some w => veq p.2 w
    | none => false)

/-- Line 397 of `compare_file`: `local_data == plc_data`, Python `==` on
two-level dicts, which is dict equality with dict equality of the inner
maps and scalar `==` on the parameter values. -/
def compare_docs (a b : ConfigDocument) : Bool :=
  pyDictEq (pyDictEq pyEq) a b

/-- The function `download_file_json_dict` (lines 295-333):
`json.loads(download_file_text(...))`.  The json parser is abstracted as
`loads`; a parse failure is its error. -/
def download_file_json_dict (login : Cred → LoginResult)
    (loads : List Nat → Except PyExc ConfigDocument) (fs : RemoteFS)
    (hostname : String) (filename : Option String) (directory : Option String)
    (chunking : List Nat → List (List Nat)) : Except PyExc ConfigDocument :=
  match download_file_text login fs hostname filename directory chunking with
  | .error e => .error e
  | .ok text => loads text

/-- The function `local_file_json_dict` (lines 336-354): open the local
file (`OSError` if missing) and parse it with `json.load`. -/
def local_file_json_dict (loads : List Nat → Except PyExc ConfigDocument)
    (localfs : String → Option (List Nat)) (filename : String) :
    Except PyExc ConfigDocument :=
  match localfs filename with
  | none => .error .ioError
  | some bytes => loads bytes

/-- The function `compare_file` (lines 357-397): load the local document,
download the remote one, and return whether they are equal.  Note that
`plc_filename` is forwarded to `download_file_json_dict` unchanged: the
basename defaulting promised by the docstring is absent, so an omitted
`plc_filename` reaches the `RETR` f-string as `None`. -/
def compare_file (login : Cred → LoginResult)
    (loads : List Nat → Except PyExc ConfigDocument)
    (localfs : String → Option (List Nat)) (fs : RemoteFS)
    (hostname local_filename : String) (plc_filename : Option String)
    (directory : Option String) (chunking : List Nat → List (List Nat)) :
    Except PyExc Bool :=
  match local_file_json_dict loads localfs local_filename with
  | .error e => .error e
  | .ok local_data =>
    match download_file_json_dict login loads fs hostname plc_filename
        directory chunking with
    | .error e => .error e
    | .ok plc_data => .ok (compare_docs local_data plc_data)

/-- The function `list_filenames` (lines 87-109): `ftp_obj.nlst()` inside a
session, i.e. the names stored in the session's directory. -/
def list_filenames (login : Cred → LoginResult) (fs : RemoteFS)
    (hostname : String) (directory : Option String) : Except PyExc (List String) :=
  match ftp_session login directory with
  | .error e => .error e
  | .ok dir => .ok ((fs.filter (fun e => decide (e.1.1 = dir))).map (fun e => e.1.2))

/-- The function `list_file_info` (lines 158-183): collect the `LIST` lines
of the session's directory and parse each with `PLCFile.from_list_line`;
the first parse error propagates.  The device's listing output is the map
`listing` from directory to lines. -/
def list_file_info (login : Cred → LoginResult) (listing : String → List String)
    (hostname : String) (directory : Option String) : Except PyExc (List PLCFile) :=
  match ftp_session login directory with
  | .error e => .error e
  | .ok dir => (listing dir).mapM PLCFile.from_list_line

/-- A host that accepts every login attempt with response `230`. -/
def acceptAllLogin : Cred → LoginResult := fun _ => .ok "230"

/-- A well-behaved host: accepts logins, already has the `pmps` directory,
and its `quit` succeeds. -/
def acceptAllHB : HostBehavior := ⟨acceptAllLogin, ["pmps"], false⟩

/-- A host that rejects every login attempt with `ftplib.error_perm`. -/
def rejectAllLogin : Cred → LoginResult := fun _ => .permError

/-- A host on which authentication is exhausted. -/
def rejectAllHB : HostBehavior := ⟨rejectAllLogin, ["pmps"], false⟩

/-- A host that accepts the first default credential and rejects every
other attempt with a permission error. -/
def acceptFirstLogin : Cred → LoginResult := fun c =>
  match c with
  | some ("Administrator", "1") => .ok "230"
  | _ => .permError

/-- A host that rejects the first default credential with a permission
error and accepts the second. -/
def rejectFirstLogin : Cred → LoginResult := fun c =>
  match c with
  | some ("webguest", "1") => .ok "230"
  | _ => .permError

/-- Formalisation of the claim for C2: after the first accepted credential
no further login attempt is made, i.e. any accepted attempt in the attempt
list is its last element. -/
def noAttemptAfterAccepted (login : Cred → LoginResult) : Prop :=
  ∀ i : Fin (loginPhase login).1.length,
    isAccepted (login ((loginPhase login).1.get i)) = true →
    i.val + 1 = (loginPhase login).1.length

/-- A parse function standing in for `json.loads` that ignores its input:
sufficient for the claims whose outcome is decided before parsing. -/
def demoLoads : List Nat → Except PyExc ConfigDocument := fun _ => .ok []

/-- A local filesystem holding one configuration file. -/
def demoLocalFS : String → Option (List Nat) := fun p =>
  if p = "/configs/kfe-motion.json" then some [123, 125] else none

/-- A remote server state holding the same configuration file under the
base name of the local path, in the default directory. -/
def demoRemoteFS : RemoteFS := [(("pmps", "kfe-motion.json"), [123, 125])]

/-- The transport that delivers a file in a single data callback. -/
def singleChunk : List Nat → List (List Nat) := fun d => [d]

/-- Bytes of the chunk sequence in delivery order. -/
def concatChunks : List (List Nat) → List Nat
  | [] => []
  | c :: rest => c ++ concatChunks rest

/-- The specification's structural equality on ConfigDocuments, with the
parameter values compared by Python scalar equality: same set of top-level
keys, and per key the same set of parameter names with equal values.
Being phrased through lookups only, it is order-independent at both
levels. -/
def SpecStructEqPy (a b : ConfigDocument) : Prop :=
  (∀ k, (pyLookup a k).isSome = true ↔ (pyLookup b k).isSome = true) ∧
  (∀ k ma mb, pyLookup a k = some ma → pyLookup b k = some mb →
    ((∀ p, (pyLookup ma p).isSome = true ↔ (pyLookup mb p).isSome = true) ∧
     (∀ p va vb, pyLookup ma p = some va → pyLookup mb p = some vb →
        pyEq va vb = true)))

/-- Two parameter-reordered documents used as the C5 witness input. -/
def exDocC : ConfigDocument := [("dev", [("p", JVal.num 1), ("q", JVal.str "x")])]

/-- The same document as `exDocC` with the parameter entries reordered. -/
def exDocD : ConfigDocument := [("dev", [("q", JVal.str "x"), ("p", JVal.num 1)])]

/-- A document whose single parameter value is the boolean `true`. -/
def exDocA : ConfigDocument := [("dev", [("param", JVal.bool true)])]

/-- A document whose single parameter value is the number `1`. -/
def exDocB : ConfigDocument := [("dev", [("param", JVal.num 1)])]

/-- The loads function for the C5 counterexample: the local bytes `1`
parse to the boolean-valued document, anything else to the number-valued
one. -/
def exLoads : List Nat → Except PyExc ConfigDocument :=
  fun bs => if bs = [49] then .ok exDocA else .ok exDocB

/-- Local filesystem for the C5 counterexample. -/
def exLocalFS : String → Option (List Nat) := fun p =>
  if p = "local.json" then some [49] else none

/-- Remote server state for the C5 counterexample. -/
def exRemoteFS : RemoteFS := [(("pmps", "remote.json"), [50])]

/-- The credential loop propagates only non-permission errors: whenever
`tryDefaults` ends in an exception, it is the `otherError` kind. -/
theorem tryDefaults_error_other (login : Cred → LoginResult) :
    ∀ (l : List (String × String)) (rv : Option String) (e : PyExc),
      (tryDefaults login l rv).2 = .error e → e = .otherError := by
  intro l
  induction l with
  | nil =>
    intro rv e h
    simp [tryDefaults] at h
  | cons c rest ih =>
    intro rv e h
    cases hl : login (some c) with
    | ok resp =>
      rw [tryDefaults, hl] at h
      exact ih (some resp) e h
    | permError =>
      rw [tryDefaults, hl] at h
      exact ih rv e h
    | otherError =>
      rw [tryDefaults, hl] at h
      simp at h
      exact h.symm

/-- The `RuntimeError` branch of `ftp` is unreachable: `login` returns a
response string whenever it returns, so `rval` is never `None` after a
completed login call. -/
theorem loginPhase_ne_runtimeError (login : Cred → LoginResult) :
    (loginPhase login).2 ≠ Except.error PyExc.runtimeError := by
  unfold loginPhase
  rcases htd : tryDefaults login DEFAULT_PW none with ⟨att, r⟩
  cases r with
  | error e =>
    have he : e = .otherError := tryDefaults_error_other login DEFAULT_PW none e (by rw [htd])
    subst he
    simp
  | ok rv =>
    cases rv with
    | some s => simp
    | none =>
      cases hl : login none with
      | ok resp => simp [hl]
      | permError => simp [hl]
      | otherError => simp [hl]

/-- C1.  The session is not released on the exception path: the `yield` at
line 77 is not inside any `try`/`finally`, so when the caller's body raises,
the generator propagates the exception immediately and the cleanup at
lines 79-84 never runs — the trace of the run contains neither `quit` nor
`close`, contradicting the claim (and the docstring) that the session is
released on every exit path. -/
theorem c1_body_exception_skips_cleanup :
    (ftp acceptAllHB "plc01" none .raises).2 = Except.error PyExc.bodyError ∧
    FtpEvent.runBody ∈ (ftp acceptAllHB "plc01" none .raises).1 ∧
    FtpEvent.quit ∉ (ftp acceptAllHB "plc01" none .raises).1 ∧
    FtpEvent.close ∉ (ftp acceptAllHB "plc01" none .raises).1 := by
  refine ⟨rfl, ?_, ?_, ?_⟩ <;> decide

/-- C4.  When every login attempt fails, the propagated exception is the
`ftplib.error_perm` raised by the uncaught anonymous `login()` call, not
the `RuntimeError` of line 70 — which is unreachable for every host
behaviour — and the connection is left open: the failing trace contains
neither `quit` nor `close`. -/
theorem c4_auth_exhaustion_error_perm_and_leak :
    (ftp rejectAllHB "plc01" none .normal).2 = Except.error PyExc.errorPerm ∧
    FtpEvent.quit ∉ (ftp rejectAllHB "plc01" none .normal).1 ∧
    FtpEvent.close ∉ (ftp rejectAllHB "plc01" none .normal).1 ∧
    (∀ login : Cred → LoginResult,
      (loginPhase login).2 ≠ Except.error PyExc.runtimeError) :=
  ⟨rfl, by decide, by decide, loginPhase_ne_runtimeError⟩

/-- C2, counterexample.  On a host that accepts the very first default
credential, the loop still performs a second login attempt (there is no
`break`), so the claim that no further login attempts happen after the
first accepted credential is false. -/
theorem c2_second_attempt_after_accepted :
    (loginPhase acceptFirstLogin).1 =
      [some ("Administrator", "1"), some ("webguest", "1")] ∧
    isAccepted (acceptFirstLogin (some ("Administrator", "1"))) = true ∧
    ¬ noAttemptAfterAccepted acceptFirstLogin := by
  refine ⟨by decide, rfl, ?_⟩
  intro h
  have := h ⟨0, by decide⟩ (by decide)
  simp at this
  rw [show (loginPhase acceptFirstLogin).1 =
      [some ("Administrator", "1"), some ("webguest", "1")] from by decide] at this
  simp at this

/-- If no default credential answers with a non-permission error, the loop
runs to completion, attempting every credential, and `rval` ends as the
response of the last accepted credential. -/
theorem tryDefaults_all_perm_or_ok (login : Cred → LoginResult) :
    ∀ (l : List (String × String)) (rv : Option String),
      (∀ c ∈ l, login (some c) ≠ .otherError) →
      tryDefaults login l rv = (l.map some, .ok (lastOkResp login l rv)) := by
  intro l
  induction l with
  | nil => intro rv _; rfl
  | cons c rest ih =>
    intro rv h
    have hrest : ∀ d ∈ rest, login (some d) ≠ .otherError :=
      fun d hd => h d (List.mem_cons_of_mem _ hd)
    cases hl : login (some c) with
    | ok resp =>
      simp [tryDefaults, hl, lastOkResp, ih (some resp) hrest]
    | permError =>
      simp [tryDefaults, hl, lastOkResp, ih rv hrest]
    | otherError => exact absurd hl (h c (List.mem_cons_self c rest))

/-- If some credential of the list is accepted (or the accumulator is
already set), the final `rval` of the loop is set. -/
theorem lastOkResp_isSome (login : Cred → LoginResult) :
    ∀ (l : List (String × String)) (rv : Option String),
      ((∃ c ∈ l, isAccepted (login (some c)) = true) ∨ rv.isSome = true) →
      (lastOkResp login l rv).isSome = true := by
  intro l
  induction l with
  | nil =>
    intro rv h
    rcases h with ⟨c, hc, _⟩ | h
    · cases hc
    · simpa [lastOkResp] using h
  | cons c rest ih =>
    intro rv h
    cases hl : login (some c) with
    | ok resp =>
      rw [lastOkResp, hl]
      exact ih (some resp) (Or.inr rfl)
    | permError =>
      rw [lastOkResp, hl]
      rcases h with ⟨d, hd, hacc⟩ | h
      · rcases List.mem_cons.mp hd with rfl | hd2
        · rw [hl] at hacc; cases hacc
        · exact ih rv (Or.inl ⟨d, hd2, hacc⟩)
      · exact ih rv (Or.inr h)
    | otherError =>
      rw [lastOkResp, hl]
      rcases h with ⟨d, hd, hacc⟩ | h
      · rcases List.mem_cons.mp hd with rfl | hd2
        · rw [hl] at hacc; cases hacc
        · exact ih rv (Or.inl ⟨d, hd2, hacc⟩)
      · exact ih rv (Or.inr h)

/-- C2, amended.  On a host that answers every default credential with
accept-or-permission-error and accepts at least one of them, the manager
attempts every credential of `DEFAULT_PW` (it does not stop at the first
accepted one), produces the session from the response of the last accepted
credential, and never attempts the anonymous login. -/
theorem c2_every_default_tried_last_accepted_wins (login : Cred → LoginResult)
    (hno : ∀ c ∈ DEFAULT_PW, login (some c) ≠ LoginResult.otherError)
    (hacc : ∃ c ∈ DEFAULT_PW, isAccepted (login (some c)) = true) :
    (loginPhase login).1 = DEFAULT_PW.map some ∧
    (none : Cred) ∉ (loginPhase login).1 ∧
    ∃ r, (loginPhase login).2 = Except.ok r ∧
      lastOkResp login DEFAULT_PW none = some r := by
  have htd := tryDefaults_all_perm_or_ok login DEFAULT_PW none hno
  have hsome := lastOkResp_isSome login DEFAULT_PW none (Or.inl hacc)
  obtain ⟨r, hr⟩ := Option.isSome_iff_exists.mp hsome
  unfold loginPhase
  rw [htd, hr]
  refine ⟨rfl, by simp, r, rfl, rfl⟩

/-- C2, witness for the amended theorem at the host that rejects the first
default credential and accepts the second. -/
theorem c2_every_default_tried_witness :
    (∀ c ∈ DEFAULT_PW, rejectFirstLogin (some c) ≠ LoginResult.otherError) ∧
    (∃ c ∈ DEFAULT_PW, isAccepted (rejectFirstLogin (some c)) = true) ∧
    ((loginPhase rejectFirstLogin).1 = DEFAULT_PW.map some ∧
     (none : Cred) ∉ (loginPhase rejectFirstLogin).1 ∧
     ∃ r, (loginPhase rejectFirstLogin).2 = Except.ok r ∧
       lastOkResp rejectFirstLogin DEFAULT_PW none = some r) :=
  ⟨by decide, by decide,
   c2_every_default_tried_last_accepted_wins rejectFirstLogin (by decide) (by decide)⟩

/-- A token list of the wrong arity makes the unpacking assignment raise
`ValueError` before any field is parsed. -/
theorem fromTokens_wrong_arity :
    ∀ (l : List String), l.length ≠ 4 → fromTokens l = .error .valueError
  | [], _ => rfl
  | [_], _ => rfl
  | [_, _], _ => rfl
  | [_, _, _], _ => rfl
  | [_, _, _, _], h => absurd rfl h
  | _ :: _ :: _ :: _ :: _ :: _, _ => rfl

/-- C6.  Every listing line that does not split into exactly four
whitespace-separated tokens makes `PLCFile.from_list_line` fail with the
unpacking `ValueError`; no record (partial or otherwise) is returned. -/
theorem c6_wrong_token_count_is_error (line : String)
    (h : (pySplitWs line).length ≠ 4) :
    PLCFile.from_list_line line = Except.error PyExc.valueError :=
  fromTokens_wrong_arity (pySplitWs line) h

/-- C6, witness: a three-token line is rejected. -/
theorem c6_wrong_token_count_witness :
    (pySplitWs "11-04-22  13:59  16439").length ≠ 4 ∧
    PLCFile.from_list_line "11-04-22  13:59  16439" = Except.error PyExc.valueError :=
  ⟨by decide, c6_wrong_token_count_is_error _ (by decide)⟩

/-- C7.  The sample listing line parses to the record with filename
`kfe-motion.json`, size 16439 and creation time 2022-11-04 13:59, the
two-digit year 22 having been interpreted as 2000 + 22. -/
theorem c7_sample_line_parses :
    PLCFile.from_list_line "11-04-22  13:59                16439 kfe-motion.json" =
      Except.ok ⟨"kfe-motion.json", ⟨2022, 11, 4, 13, 59⟩, 16439⟩ := by
  decide

/-- C3.  With `plc_filename` omitted, `compare_file` does not fetch the
remote document under the base name of the local path: the `None` default
is forwarded unchanged and interpolated into the `RETR` command as the
literal filename `None`, so even though the remote directory holds the file
under the base name, the call fails with the server's permission error
instead of comparing the documents. -/
theorem c3_omitted_plc_filename_fetches_literal_none :
    compare_file acceptAllLogin demoLoads demoLocalFS demoRemoteFS "plc01"
      "/configs/kfe-motion.json" none none singleChunk =
      Except.error PyExc.errorPerm ∧
    retrFile demoRemoteFS "pmps" (pyBasename "/configs/kfe-motion.json") =
      some [123, 125] ∧
    pyFStr (none : Option String) = "None" ∧
    retrFile demoRemoteFS "pmps" "None" = none := by
  refine ⟨rfl, by decide, rfl, by decide⟩

/-- The decoding loop of `download_file_text` yields the concatenation of
the chunks appended to the accumulator when every byte is ascii, and the
strict decode error as soon as any chunk holds a non-ascii byte. -/
theorem decode_loop_eq (chunks : List (List Nat)) : ∀ acc : List Nat,
    decode_loop acc chunks =
      (if (concatChunks chunks).all isAsciiByte = true then
        Except.ok (acc ++ concatChunks chunks)
       else Except.error PyExc.unicodeDecodeError) := by
  induction chunks with
  | nil => intro acc; simp [decode_loop, concatChunks]
  | cons c rest ih =>
    intro acc
    by_cases hc : c.all isAsciiByte = true
    · simp [decode_loop, pyDecodeAscii, hc, concatChunks, ih, List.all_append,
        List.append_assoc]
    · simp [decode_loop, pyDecodeAscii, hc, concatChunks, List.all_append]

/-- C8.  When the session opens and the requested file exists,
`download_file_text` returns the concatenation of all delivered chunks
decoded as strict ascii: the full concatenation when every byte is below
128, and a `UnicodeDecodeError` (never a silent replacement) as soon as any
chunk holds a non-ascii byte. -/
theorem c8_download_text_strict_ascii (login : Cred → LoginResult)
    (fs : RemoteFS) (hostname : String) (filename : Option String)
    (directory : Option String) (chunking : List Nat → List (List Nat))
    (data : List Nat)
    (hlog : ∃ r, (loginPhase login).2 = Except.ok r)
    (hfile : retrFile fs (resolveDirectory directory) (pyFStr filename) = some data) :
    download_file_text login fs hostname filename directory chunking =
      (if (concatChunks (chunking data)).all isAsciiByte = true then
        Except.ok (concatChunks (chunking data))
       else Except.error PyExc.unicodeDecodeError) := by
  obtain ⟨r, hr⟩ := hlog
  simp [download_file_text, ftp_session, hr, hfile, decode_loop_eq]

/-- C8, witness at a two-byte ascii file delivered in one chunk. -/
theorem c8_download_text_witness :
    (∃ r, (loginPhase acceptAllLogin).2 = Except.ok r) ∧
    retrFile [(("pmps", "a.txt"), [104, 105])] (resolveDirectory none)
      (pyFStr (some "a.txt")) = some [104, 105] ∧
    download_file_text acceptAllLogin [(("pmps", "a.txt"), [104, 105])] "plc01"
      (some "a.txt") none singleChunk =
      (if (concatChunks (singleChunk [104, 105])).all isAsciiByte = true then
        Except.ok (concatChunks (singleChunk [104, 105]))
       else Except.error PyExc.unicodeDecodeError) :=
  ⟨⟨"230", rfl⟩, rfl,
   c8_download_text_strict_ascii acceptAllLogin _ "plc01" (some "a.txt") none
     singleChunk [104, 105] ⟨"230", rfl⟩ rfl⟩

/-- Uploading stores the byte stream under the target name in the session
directory, and downloading that name afterwards returns exactly those bytes
when they are ascii. -/
theorem upload_then_download (login : Cred → LoginResult) (fs : RemoteFS)
    (hostname target : String) (data : List Nat) (directory : Option String)
    (chunking : List Nat → List (List Nat))
    (hlog : ∃ r, (loginPhase login).2 = Except.ok r)
    (hasc : data.all isAsciiByte = true)
    (hch : concatChunks (chunking data) = data) :
    upload_file login fs hostname target data directory =
      Except.ok (storFile fs (resolveDirectory directory) target data) ∧
    download_file_text login (storFile fs (resolveDirectory directory) target data)
      hostname (some target) directory chunking = Except.ok data := by
  obtain ⟨r, hr⟩ := hlog
  constructor
  · simp [upload_file, ftp_session, hr]
  · have hretr : retrFile (storFile fs (resolveDirectory directory) target data)
        (resolveDirectory directory) (pyFStr (some target)) = some data := by
      simp [storFile, retrFile, pyFStr]
    simp [download_file_text, ftp_session, hr, hretr, decode_loop_eq, hch, hasc]

/-- C9, amended.  For every ascii byte sequence and every prior server
state (any same-named remote file is overwritten — last write wins),
uploading then downloading returns exactly the uploaded bytes, and
repeating the pair of operations gives the same result.  A non-ascii
sequence does not round-trip: the download step fails with a decode error
(see the counterexample). -/
theorem c9_ascii_roundtrip (login : Cred → LoginResult) (fs : RemoteFS)
    (hostname target : String) (data : List Nat) (directory : Option String)
    (chunking : List Nat → List (List Nat))
    (hlog : ∃ r, (loginPhase login).2 = Except.ok r)
    (hasc : data.all isAsciiByte = true)
    (hch : concatChunks (chunking data) = data) :
    ∃ fs2, upload_file login fs hostname target data directory = Except.ok fs2 ∧
      download_file_text login fs2 hostname (some target) directory chunking =
        Except.ok data ∧
      ∃ fs3, upload_file login fs2 hostname target data directory = Except.ok fs3 ∧
        download_file_text login fs3 hostname (some target) directory chunking =
          Except.ok data := by
  obtain ⟨h1, h2⟩ :=
    upload_then_download login fs hostname target data directory chunking hlog hasc hch
  obtain ⟨h3, h4⟩ :=
    upload_then_download login (storFile fs (resolveDirectory directory) target data)
      hostname target data directory chunking hlog hasc hch
  exact ⟨_, h1, h2, _, h3, h4⟩

/-- C9, witness: the ascii bytes of `hello` round-trip twice through a
server that already holds a different file under the same name. -/
theorem c9_ascii_roundtrip_witness :
    (∃ r, (loginPhase acceptAllLogin).2 = Except.ok r) ∧
    ([104, 101, 108, 108, 111] : List Nat).all isAsciiByte = true ∧
    concatChunks (singleChunk [104, 101, 108, 108, 111]) = [104, 101, 108, 108, 111] ∧
    (∃ fs2, upload_file acceptAllLogin [(("pmps", "f.json"), [90])] "plc01" "f.json"
        [104, 101, 108, 108, 111] none = Except.ok fs2 ∧
      download_file_text acceptAllLogin fs2 "plc01" (some "f.json") none singleChunk =
        Except.ok [104, 101, 108, 108, 111] ∧
      ∃ fs3, upload_file acceptAllLogin fs2 "plc01" "f.json"
          [104, 101, 108, 108, 111] none = Except.ok fs3 ∧
        download_file_text acceptAllLogin fs3 "plc01" (some "f.json") none singleChunk =
          Except.ok [104, 101, 108, 108, 111]) :=
  ⟨⟨"230", rfl⟩, by decide, rfl,
   c9_ascii_roundtrip acceptAllLogin [(("pmps", "f.json"), [90])] "plc01" "f.json"
     [104, 101, 108, 108, 111] none singleChunk ⟨"230", rfl⟩ (by decide) rfl⟩

/-- C9, counterexample.  A byte sequence containing the non-ascii byte 255
does not round-trip: the upload stores it, but `download_file_text` fails
with the strict decode error instead of returning the bytes, so the claim
quantified over every byte sequence is false. -/
theorem c9_non_ascii_roundtrip_fails :
    upload_file acceptAllLogin [(("pmps", "f.json"), [65])] "plc01" "f.json" [255] none =
      Except.ok (storFile [(("pmps", "f.json"), [65])] "pmps" "f.json" [255]) ∧
    download_file_text acceptAllLogin
      (storFile [(("pmps", "f.json"), [65])] "pmps" "f.json" [255]) "plc01"
      (some "f.json") none singleChunk = Except.error PyExc.unicodeDecodeError ∧
    download_file_text acceptAllLogin
      (storFile [(("pmps", "f.json"), [65])] "pmps" "f.json" [255]) "plc01"
      (some "f.json") none singleChunk ≠ Except.ok [255] := by
  refine ⟨rfl, rfl, by decide⟩

/-- C10.  Passing the empty string as the directory behaves identically to
omitting the argument, in the session manager and in every public
operation that forwards a directory to it: `directory or DIRECTORY`
coerces every falsy value — `None` and the empty string alike — to the
default directory `pmps`. -/
theorem c10_empty_directory_same_as_omitted :
    resolveDirectory (some "") = DIRECTORY ∧
    resolveDirectory none = DIRECTORY ∧
    (∀ (hb : HostBehavior) (hostname : String) (body : BodyResult),
      ftp hb hostname (some "") body = ftp hb hostname none body) ∧
    (∀ login : Cred → LoginResult,
      ftp_session login (some "") = ftp_session login none) ∧
    (∀ (login : Cred → LoginResult) (fs : RemoteFS) (hostname : String),
      list_filenames login fs hostname (some "") =
        list_filenames login fs hostname none) ∧
    (∀ (login : Cred → LoginResult) (listing : String → List String)
        (hostname : String),
      list_file_info login listing hostname (some "") =
        list_file_info login listing hostname none) ∧
    (∀ (login : Cred → LoginResult) (fs : RemoteFS) (hostname target : String)
        (data : List Nat),
      upload_file login fs hostname target data (some "") =
        upload_file login fs hostname target data none) ∧
    (∀ (login : Cred → LoginResult) (localfs : String → Option (List Nat))
        (fs : RemoteFS) (hostname filename : String) (dest : Option String),
      upload_filename login localfs fs hostname filename dest (some "") =
        upload_filename login localfs fs hostname filename dest none) ∧
    (∀ (login : Cred → LoginResult) (fs : RemoteFS) (hostname : String)
        (filename : Option String) (chunking : List Nat → List (List Nat)),
      download_file_text login fs hostname filename (some "") chunking =
        download_file_text login fs hostname filename none chunking) ∧
    (∀ (login : Cred → LoginResult) (loads : List Nat → Except PyExc ConfigDocument)
        (fs : RemoteFS) (hostname : String) (filename : Option String)
        (chunking : List Nat → List (List Nat)),
      download_file_json_dict login loads fs hostname filename (some "") chunking =
        download_file_json_dict login loads fs hostname filename none chunking) ∧
    (∀ (login : Cred → LoginResult) (loads : List Nat → Except PyExc ConfigDocument)
        (localfs : String → Option (List Nat)) (fs : RemoteFS)
        (hostname local_filename : String) (plc_filename : Option String)
        (chunking : List Nat → List (List Nat)),
      compare_file login loads localfs fs hostname local_filename plc_filename
        (some "") chunking =
        compare_file login loads localfs fs hostname local_filename plc_filename
          none chunking) :=
  ⟨rfl, rfl, fun _ _ _ => rfl, fun _ => rfl, fun _ _ _ => rfl, fun _ _ _ => rfl,
   fun _ _ _ _ _ => rfl, fun _ _ _ _ _ _ => rfl, fun _ _ _ _ _ => rfl,
   fun _ _ _ _ _ _ => rfl, fun _ _ _ _ _ _ _ _ => rfl⟩

/-- A lookup is defined exactly for the keys of the dict. -/
theorem pyLookup_isSome_iff {α : Type} (m : List (String × α)) (k : String) :
    (pyLookup m k).isSome = true ↔ k ∈ m.map Prod.fst := by
  induction m with
  | nil => simp [pyLookup]
  | cons e rest ih =>
    obtain ⟨k2, v⟩ := e
    by_cases h : k2 = k
    · subst h
      simp [pyLookup]
    · simp only [pyLookup, if_neg h, List.map_cons, List.mem_cons]
      rw [ih]
      constructor
      · exact fun hk => Or.inr hk
      · rintro (hk | hk)
        · exact absurd hk.symm h
        · exact hk

/-- With duplicate-free keys, membership determines the lookup. -/
theorem pyLookup_of_mem {α : Type} {m : List (String × α)} {k : String} {v : α}
    (hnd : (m.map Prod.fst).Nodup) (hm : (k, v) ∈ m) : pyLookup m k = some v := by
  induction m with
  | nil => cases hm
  | cons e rest ih =>
    obtain ⟨k2, v2⟩ := e
    simp only [List.map_cons, List.nodup_cons] at hnd
    rcases List.mem_cons.mp hm with heq | hmem
    · cases heq
      simp [pyLookup]
    · have hk : ¬ (k2 = k) := by
        intro h
        exact hnd.1 (by rw [h]; exact List.mem_map.mpr ⟨(k, v), hmem, rfl⟩)
      simp only [pyLookup, if_neg hk]
      exact ih hnd.2 hmem

/-- A successful lookup exhibits a member of the dict. -/
theorem mem_of_pyLookup {α : Type} {m : List (String × α)} {k : String} {v : α}
    (h : pyLookup m k = some v) : (k, v) ∈ m := by
  induction m with
  | nil => cases h
  | cons e rest ih =>
    obtain ⟨k2, v2⟩ := e
    by_cases hk : k2 = k
    · subst hk
      have h2 : some v2 = some v := by simpa [pyLookup] using h
      cases h2
      exact List.mem_cons_self _ _
    · simp only [pyLookup, if_neg hk] at h
      exact List.mem_cons_of_mem _ (ih h)

/-- CPython dict equality, characterised extensionally: for duplicate-free
keys it holds exactly when both dicts are defined on the same keys and the
values at each shared key are equal under the value equality. -/
theorem pyDictEq_iff {α : Type} (veq : α → α → Bool) (a b : List (String × α))
    (ha : (a.map Prod.fst).Nodup) (hb : (b.map Prod.fst).Nodup) :
    pyDictEq veq a b = true ↔
      ((∀ k, (pyLookup a k).isSome = true ↔ (pyLookup b k).isSome = true) ∧
       (∀ k va vb, pyLookup a k = some va → pyLookup b k = some vb →
          veq va vb = true)) := by
  unfold pyDictEq
  rw [Bool.and_eq_true, beq_iff_eq, List.all_eq_true]
  constructor
  · rintro ⟨hlen, hall⟩
    have hsub : ∀ k, (pyLookup a k).isSome = true → (pyLookup b k).isSome = true := by
      intro k hk
      obtain ⟨va, hva⟩ := Option.isSome_iff_exists.mp hk
      have hm := hall (k, va) (mem_of_pyLookup hva)
      simp only at hm
      cases hvb : pyLookup b k with
      | none => rw [hvb] at hm; cases hm
      | some w => simp [hvb]
    have hkeys : ∀ k, k ∈ a.map Prod.fst ↔ k ∈ b.map Prod.fst := by
      have hsub2 : (a.map Prod.fst).toFinset ⊆ (b.map Prod.fst).toFinset := by
        intro k hk
        rw [List.mem_toFinset] at hk ⊢
        exact (pyLookup_isSome_iff b k).mp
          (hsub k ((pyLookup_isSome_iff a k).mpr hk))
      have hcard : (b.map Prod.fst).toFinset.card ≤ (a.map Prod.fst).toFinset.card := by
        rw [List.toFinset_card_of_nodup ha, List.toFinset_card_of_nodup hb]
        simp [hlen]
      have heq := Finset.eq_of_subset_of_card_le hsub2 hcard
      intro k
      rw [← List.mem_toFinset, ← List.mem_toFinset, heq]
    refine ⟨fun k => ?_, fun k va vb hva hvb => ?_⟩
    · rw [pyLookup_isSome_iff, pyLookup_isSome_iff]
      exact hkeys k
    · have hm := hall (k, va) (mem_of_pyLookup hva)
      simp only at hm
      rw [hvb] at hm
      exact hm
  · rintro ⟨hiff, hpt⟩
    constructor
    · have heq : (a.map Prod.fst).toFinset = (b.map Prod.fst).toFinset := by
        apply Finset.ext
        intro k
        rw [List.mem_toFinset, List.mem_toFinset, ← pyLookup_isSome_iff,
          ← pyLookup_isSome_iff]
        exact hiff k
      have hcard := congrArg Finset.card heq
      rw [List.toFinset_card_of_nodup ha, List.toFinset_card_of_nodup hb] at hcard
      simpa using hcard
    · intro p hp
      obtain ⟨k, v⟩ := p
      have hva : pyLookup a k = some v := pyLookup_of_mem ha hp
      have hsome : (pyLookup b k).isSome = true := (hiff k).mp (by simp [hva])
      obtain ⟨w, hw⟩ := Option.isSome_iff_exists.mp hsome
      simp only
      rw [hw]
      exact hpt k v w hva hw

/-- C5, amended.  For documents with duplicate-free keys (as produced by
`json.loads`), the comparison of line 397 returns true exactly when the
documents have equal key sets and, per key, equal parameter-name sets with
values equal under Python equality — order-independent at both mapping
levels.  Python equality distinguishes strings from numbers (so `"1"` and
`1` compare unequal) but identifies a boolean with its numeric value, so
equal values need not have equal types (see the counterexample). -/
theorem c5_compare_iff_py_struct_eq (a b : ConfigDocument)
    (ha : (a.map Prod.fst).Nodup) (hb : (b.map Prod.fst).Nodup)
    (hia : ∀ p ∈ a, (p.2.map Prod.fst).Nodup)
    (hib : ∀ p ∈ b, (p.2.map Prod.fst).Nodup) :
    compare_docs a b = true ↔ SpecStructEqPy a b := by
  unfold compare_docs SpecStructEqPy
  rw [pyDictEq_iff _ a b ha hb]
  constructor
  · rintro ⟨h1, h2⟩
    refine ⟨h1, fun k ma mb hka hkb => ?_⟩
    exact (pyDictEq_iff pyEq ma mb (hia (k, ma) (mem_of_pyLookup hka))
      (hib (k, mb) (mem_of_pyLookup hkb))).mp (h2 k ma mb hka hkb)
  · rintro ⟨h1, h2⟩
    refine ⟨h1, fun k ma mb hka hkb => ?_⟩
    exact (pyDictEq_iff pyEq ma mb (hia (k, ma) (mem_of_pyLookup hka))
      (hib (k, mb) (mem_of_pyLookup hkb))).mpr (h2 k ma mb hka hkb)

/-- C5, witness for the amended theorem at a concrete reordered pair. -/
theorem c5_compare_iff_witness :
    ((exDocC.map Prod.fst).Nodup ∧ (exDocD.map Prod.fst).Nodup ∧
     (∀ p ∈ exDocC, (p.2.map Prod.fst).Nodup) ∧
     (∀ p ∈ exDocD, (p.2.map Prod.fst).Nodup)) ∧
    (compare_docs exDocC exDocD = true ↔ SpecStructEqPy exDocC exDocD) :=
  ⟨⟨by decide, by decide, by decide, by decide⟩,
   c5_compare_iff_py_struct_eq exDocC exDocD (by decide) (by decide)
     (by decide) (by decide)⟩

/-- C5, counterexample.  `compare_file` returns true on two documents whose
parameter values have different types — a boolean versus a number — because
Python evaluates `True == 1` to `True`; the claim that a type difference
always makes the result false is therefore wrong. -/
theorem c5_bool_num_compare_true :
    compare_file acceptAllLogin exLoads exLocalFS exRemoteFS "plc01" "local.json"
      (some "remote.json") none singleChunk = Except.ok true ∧
    pyLookup exDocA "dev" = some [("param", JVal.bool true)] ∧
    pyLookup exDocB "dev" = some [("param", JVal.num 1)] ∧
    JVal.bool true ≠ JVal.num 1 ∧
    compare_docs exDocA exDocB = true := by
  refine ⟨rfl, rfl, rfl, by decide, by decide⟩
